import Mathlib

/-!
Verification of the container lifecycle and status-reconciliation core of the
`msm` repository (modules `msm/core/container_manager.py`,
`msm/core/status_monitor.py`, `msm/core/mcp_manager.py` and
`msm/data/models.py`), as a shallow embedding in Lean.

The Docker daemon is modelled as explicit data passed to each operation: a
query either finds a container, reports "not found" (`docker.errors.NotFound`)
or fails (`docker.errors.DockerException`).  Python exceptions are modelled by
`Except PyErr`; a function that can raise an exception that its callers do not
catch returns `Except PyErr α`.
-/

namespace MSM

/-- Python exception kinds relevant to these modules.  `dockerException`
covers `docker.errors.DockerException` raised by the code itself,
`validationFailure` a pydantic validation error on model construction. -/
inductive PyErr where
  | keyError
  | valueError
  | indexError
  | validationFailure
  | dockerException
deriving DecidableEq, Repr

/-- Result of a daemon query (`client.containers.get(...)` and friends): the
value when found, `notFound` for `docker.errors.NotFound`, `daemonFailure`
for any other `docker.errors.DockerException`. -/
inductive Probe (α : Type) where
  | found (a : α)
  | notFound
  | daemonFailure
deriving DecidableEq, Repr

/-- Normalized status enum (`ServerStatus` / `ContainerStatus` in
`msm/data/models.py`; the two enums in the source have the same six members). -/
inductive ContainerStatus where
  | RUNNING
  | STOPPED
  | ERROR
  | UNKNOWN
  | STARTING
  | STOPPING
deriving DecidableEq, Repr

/-- Modelled from the spec: `ContainerStatus.from_docker_status` is called by
`ContainerManager.get_container_status` and `StatusMonitor` but its definition
is not under `src/` (`models.py` there defines only `ServerStatus`, without the
classmethod; only callers and tests reference it).  The classification table is
taken from spec section 4.3 and corroborated by the parametrized test
`tests/core/test_container_manager.py::test_get_container_status`.
`none` models an absent daemon status string. -/
def ContainerStatus.from_docker_status (s : Option String) : ContainerStatus :=
  match s with
  | none => .UNKNOWN
  | some str =>
    if str = "running" then .RUNNING
    else if str = "exited" then .STOPPED
    else if str = "dead" then .STOPPED
    else if str = "created" then .STARTING
    else if str = "restarting" then .STARTING
    else if str = "paused" then .UNKNOWN
    else .UNKNOWN

/-- `ContainerManager.get_container_status` (container_manager.py lines
250-265): probe the container, classify its status string; `NotFound` gives
`UNKNOWN`, any other daemon failure gives `ERROR`. -/
def get_container_status (p : Probe (Option String)) : ContainerStatus :=
  match p with
  | .found s => ContainerStatus.from_docker_status s
  | .notFound => .UNKNOWN
  | .daemonFailure => .ERROR

/-- C1: for every daemon status string, `get_container_status` returns exactly
the normalized status of the classification table: "running" maps to RUNNING,
"exited" and "dead" map to STOPPED, "created" and "restarting" map to
STARTING, "paused" maps to UNKNOWN, and any other or absent string maps to
UNKNOWN. -/
theorem c1_status_classification :
    (∀ s : Option String,
        get_container_status (.found s) = ContainerStatus.from_docker_status s)
    ∧ (ContainerStatus.from_docker_status (some "running") = .RUNNING
      ∧ ContainerStatus.from_docker_status (some "exited") = .STOPPED
      ∧ ContainerStatus.from_docker_status (some "dead") = .STOPPED
      ∧ ContainerStatus.from_docker_status (some "created") = .STARTING
      ∧ ContainerStatus.from_docker_status (some "restarting") = .STARTING
      ∧ ContainerStatus.from_docker_status (some "paused") = .UNKNOWN
      ∧ ContainerStatus.from_docker_status none = .UNKNOWN)
    ∧ (∀ s : String, s ≠ "running" → s ≠ "exited" → s ≠ "dead" →
        s ≠ "created" → s ≠ "restarting" → s ≠ "paused" →
        ContainerStatus.from_docker_status (some s) = .UNKNOWN) := by
  refine ⟨fun s => rfl, by decide, ?_⟩
  intro s h1 h2 h3 h4 h5 h6
  simp [ContainerStatus.from_docker_status, h1, h2, h3, h4, h5, h6]

/-- C1 witness: the unrecognized-string clause of `c1_status_classification`
instantiated at the concrete string "weird". -/
theorem c1_status_classification_witness :
    ContainerStatus.from_docker_status (some "weird") = .UNKNOWN :=
  c1_status_classification.2.2 "weird" (by decide) (by decide) (by decide)
    (by decide) (by decide) (by decide)

/-! Stats payloads and `StatusMonitor` (status_monitor.py).

A Docker stats payload is a loosely-typed JSON dictionary; the code reads it
with raw key accesses, which raise `KeyError` when a key is absent.  Each leaf
the code reads is modelled as an `Option` field (`none` models the key, or any
level above it, being absent).  Fields whose absence the code tolerates
(`'networks' in stats`, `'blkio_stats' in stats and 'io_service_bytes_recursive'
in stats['blkio_stats']`, `stats.get('pids_stats', {}).get('current', 0)`) are
`Option`s whose `none` takes the tolerated branch instead of raising. -/

/-- One entry of `stats['networks']`; the loop reads `interface['rx_bytes']`
and `interface['tx_bytes']` with raw accesses. -/
structure NetIf where
  rx_bytes : Option Int
  tx_bytes : Option Int
deriving DecidableEq, Repr

/-- One entry of `stats['blkio_stats']['io_service_bytes_recursive']`; the
loop reads `item['op']` and, for "Read"/"Write" entries, `item['value']`. -/
structure BlkioItem where
  op : Option String
  value : Option Int
deriving DecidableEq, Repr

/-- The slice of a Docker stats payload read by
`StatusMonitor.get_resource_usage`. -/
structure Stats where
  cpu_total_usage : Option Int
  cpu_percpu_usage : Option (List Int)
  cpu_system_cpu_usage : Option Int
  precpu_total_usage : Option Int
  precpu_system_cpu_usage : Option Int
  memory_usage : Option Int
  networks : Option (List NetIf)
  blkio_io_service_bytes : Option (List BlkioItem)
  pids_current : Option Int
deriving DecidableEq, Repr

/-- Raw dictionary access `d[key]`: raises `KeyError` when the key is absent. -/
def req {α : Type} (o : Option α) : Except PyErr α :=
  match o with
  | some a => .ok a
  | none => .error .keyError

/-- The CPU-percentage expression of `StatusMonitor.get_resource_usage`
(status_monitor.py lines 97-99):
`(cpu_delta / system_cpu_delta) * len(percpu_usage) * 100 if system_cpu_delta > 0 else 0.0`
with `cpu_delta = cur_total - pre_total` and
`system_cpu_delta = cur_sys - pre_sys`.  Python float arithmetic is modelled
exactly over `ℚ`. -/
def computed_cpu_usage (curTotal preTotal curSys preSys : Int) (percpu : List Int) : ℚ :=
  let cpu_delta := curTotal - preTotal
  let system_cpu_delta := curSys - preSys
  if 0 < system_cpu_delta then
    (cpu_delta : ℚ) / (system_cpu_delta : ℚ) * (percpu.length : ℚ) * 100
  else 0

/-- `ResourceUsage` (models.py lines 119-132): all fields independently
optional.  `cpu_usage` is a float, modelled over `ℚ`. -/
structure ResourceUsage where
  cpu_usage : Option ℚ := none
  memory_usage : Option Int := none
  network_rx : Option Int := none
  network_tx : Option Int := none
  block_read : Option Int := none
  block_write : Option Int := none
  pids : Option Int := none
deriving DecidableEq, Repr

/-- Pydantic field constraints of `ResourceUsage`: `cpu_usage` in `[0, 100]`,
every other present numeric field nonnegative. -/
def ResourceUsage.validB (r : ResourceUsage) : Bool :=
  r.cpu_usage.all (fun q => decide (0 ≤ q ∧ q ≤ 100)) &&
  r.memory_usage.all (fun n => decide (0 ≤ n)) &&
  r.network_rx.all (fun n => decide (0 ≤ n)) &&
  r.network_tx.all (fun n => decide (0 ≤ n)) &&
  r.block_read.all (fun n => decide (0 ≤ n)) &&
  r.block_write.all (fun n => decide (0 ≤ n)) &&
  r.pids.all (fun n => decide (0 ≤ n))

/-- Pydantic constructor `ResourceUsage(...)`: validates the field constraints
and raises a validation error when one fails. -/
def ResourceUsage.construct (r : ResourceUsage) : Except PyErr ResourceUsage :=
  if r.validB then .ok r else .error .validationFailure

/-- The `networks` summation loop of `get_resource_usage` (lines 105-110):
adds `rx_bytes` and `tx_bytes` of every interface; a missing key raises. -/
def sumNetworks : List NetIf → Except PyErr (Int × Int)
  | [] => .ok (0, 0)
  | i :: tl => do
      let rx ← req i.rx_bytes
      let tx ← req i.tx_bytes
      let rest ← sumNetworks tl
      .ok (rx + rest.1, tx + rest.2)

/-- The `blkio_stats` summation loop of `get_resource_usage` (lines 113-120):
adds `value` of "Read" entries into `block_read` and of "Write" entries into
`block_write`; other op kinds are ignored and their `value` is never read. -/
def sumBlkio : List BlkioItem → Except PyErr (Int × Int)
  | [] => .ok (0, 0)
  | it :: tl => do
      let o ← req it.op
      if o = "Read" then do
        let v ← req it.value
        let rest ← sumBlkio tl
        .ok (v + rest.1, rest.2)
      else if o = "Write" then do
        let v ← req it.value
        let rest ← sumBlkio tl
        .ok (rest.1, v + rest.2)
      else sumBlkio tl

/-- The `if 'networks' in stats` guard around the networks loop: an absent
key leaves both counters at 0. -/
def netStats (o : Option (List NetIf)) : Except PyErr (Int × Int) :=
  match o with
  | none => .ok (0, 0)
  | some ifs => sumNetworks ifs

/-- The `if 'blkio_stats' in stats and 'io_service_bytes_recursive' in
stats['blkio_stats']` guard around the blkio loop: an absent key leaves both
counters at 0. -/
def blkStats (o : Option (List BlkioItem)) : Except PyErr (Int × Int) :=
  match o with
  | none => .ok (0, 0)
  | some items => sumBlkio items

/-- `StatusMonitor.get_resource_usage` (status_monitor.py lines 85-139).
`NotFound` and `DockerException` from the daemon are caught and give `none`;
`KeyError` from the payload and pydantic validation errors are not caught and
propagate to the caller. -/
def get_resource_usage (p : Probe Stats) : Except PyErr (Option ResourceUsage) :=
  match p with
  | .notFound => .ok none
  | .daemonFailure => .ok none
  | .found st => do
      let curTotal ← req st.cpu_total_usage
      let preTotal ← req st.precpu_total_usage
      let curSys ← req st.cpu_system_cpu_usage
      let preSys ← req st.precpu_system_cpu_usage
      let cpuUsage ←
        if 0 < curSys - preSys then
          (req st.cpu_percpu_usage).map
            (fun pc => computed_cpu_usage curTotal preTotal curSys preSys pc)
        else pure (0 : ℚ)
      let memoryUsage ← req st.memory_usage
      let net ← netStats st.networks
      let blk ← blkStats st.blkio_io_service_bytes
      let pids := st.pids_current.getD 0
      ResourceUsage.construct
        { cpu_usage := some cpuUsage, memory_usage := some memoryUsage,
          network_rx := some net.1, network_tx := some net.2,
          block_read := some blk.1, block_write := some blk.2,
          pids := some pids }

/-- The stats payload of `tests/core/test_status_monitor.py::test_get_resource_usage_success`. -/
def exampleStats : Stats :=
  { cpu_total_usage := some 2000, cpu_percpu_usage := some [1000, 1000],
    cpu_system_cpu_usage := some 10000, precpu_total_usage := some 1000,
    precpu_system_cpu_usage := some 5000, memory_usage := some 1048576,
    networks := some [{ rx_bytes := some 1000, tx_bytes := some 2000 }],
    blkio_io_service_bytes := some
      [{ op := some "Read", value := some 512 },
       { op := some "Write", value := some 1024 }],
    pids_current := some 5 }

/-- C2: the computed `cpu_usage` is `(cpu_delta / system_cpu_delta) ×
core_count × 100` whenever the system-wide delta is positive, and exactly `0`
when the system-wide delta is `≤ 0`; on the documented example (totals
2000/1000, system 10000/5000, two per-core entries) the end-to-end result of
`get_resource_usage` is `40`. -/
theorem c2_cpu_percentage :
    (∀ curT preT curS preS : Int, ∀ pc : List Int, 0 < curS - preS →
        computed_cpu_usage curT preT curS preS pc
          = ((curT - preT : Int) : ℚ) / ((curS - preS : Int) : ℚ)
              * (pc.length : ℚ) * 100)
    ∧ (∀ curT preT curS preS : Int, ∀ pc : List Int, curS - preS ≤ 0 →
        computed_cpu_usage curT preT curS preS pc = 0)
    ∧ computed_cpu_usage 2000 1000 10000 5000 [1000, 1000] = 40
    ∧ get_resource_usage (.found exampleStats)
        = .ok (some { cpu_usage := some 40, memory_usage := some 1048576,
                      network_rx := some 1000, network_tx := some 2000,
                      block_read := some 512, block_write := some 1024,
                      pids := some 5 }) := by
  have hcpu : computed_cpu_usage 2000 1000 10000 5000 [1000, 1000] = 40 := by
    norm_num [computed_cpu_usage]
  refine ⟨?_, ?_, hcpu, ?_⟩
  · intro curT preT curS preS pc h
    simp [computed_cpu_usage, h]
  · intro curT preT curS preS pc h
    simp [computed_cpu_usage, not_lt.mpr h]
  · simp only [get_resource_usage, exampleStats, req, Except.map, bind, Except.bind, pure,
      ResourceUsage.construct, ResourceUsage.validB, netStats, blkStats, sumNetworks,
      sumBlkio, Option.getD, Option.all, hcpu, decide_eq_true_eq]
    simp [Except.pure]
    norm_num

/-- C2 witness: the positive and nonpositive branches of `c2_cpu_percentage`
instantiated at concrete inputs. -/
theorem c2_cpu_percentage_witness :
    computed_cpu_usage 2000 1000 10000 5000 [1000, 1000]
        = ((2000 - 1000 : Int) : ℚ) / ((10000 - 5000 : Int) : ℚ) * (2 : ℚ) * 100
    ∧ computed_cpu_usage 9 0 5 5 [1000] = 0 :=
  ⟨c2_cpu_percentage.1 2000 1000 10000 5000 [1000, 1000] (by decide),
   c2_cpu_percentage.2.1 9 0 5 5 [1000] (by decide)⟩

/-- `ContainerLogs` (models.py lines 101-104). -/
structure ContainerLogs where
  logs : List String := []
deriving DecidableEq, Repr

/-- `MCPServerStatus` (models.py lines 147-161).  Timestamps are modelled by
their ISO string form. -/
structure MCPServerStatus where
  status : ContainerStatus
  container_logs : Option ContainerLogs := none
  resource_usage : Option ResourceUsage := none
  uptime : Option String := none
  health_status : Option String := none
  last_check : String
deriving DecidableEq, Repr

/-- The view of a container handle used by `check_container_status` and
`health_check`: the `status` attribute (absent modelled as `none`) and the
result of `_get_health_status` (which reads
`container.attrs['State']['Health']['Status']` and is total because it
catches `KeyError`/`TypeError` internally). -/
structure CtrView where
  status : Option String
  health : Option String
deriving DecidableEq, Repr

/-- `StatusMonitor.check_container_status` (status_monitor.py lines 46-83):
classifies the container status, attaches resource usage and health, and
stamps `last_check` with the current time.  `NotFound` gives `UNKNOWN`, any
other `DockerException` gives `ERROR`; but an exception escaping
`get_resource_usage` (which internally only catches `NotFound` and
`DockerException`) is not handled here and propagates. -/
def check_container_status (pc : Probe CtrView) (ps : Probe Stats) (now : String) :
    Except PyErr MCPServerStatus :=
  match pc with
  | .found c => do
      let ru ← get_resource_usage ps
      .ok { status := ContainerStatus.from_docker_status c.status,
            resource_usage := ru, health_status := c.health, last_check := now }
  | .notFound => .ok { status := .UNKNOWN, last_check := now }
  | .daemonFailure => .ok { status := .ERROR, last_check := now }

/-- `StatusMonitor.health_check` (status_monitor.py lines 141-157): healthy iff
the health string equals "healthy"; with no health field, healthy iff the
container is running; `NotFound` and `DockerException` give `false`. -/
def health_check (p : Probe CtrView) : Bool :=
  match p with
  | .found c =>
      match c.health with
      | some h => h == "healthy"
      | none => c.status == some "running"
  | .notFound => false
  | .daemonFailure => false

/-- A stats payload with every key absent (e.g. the empty dictionary). -/
def emptyStats : Stats :=
  { cpu_total_usage := none, cpu_percpu_usage := none, cpu_system_cpu_usage := none,
    precpu_total_usage := none, precpu_system_cpu_usage := none, memory_usage := none,
    networks := none, blkio_io_service_bytes := none, pids_current := none }

/-- C3 counterexample: the claim says the status/metrics queries never raise
for any daemon response including an arbitrary stats payload, but on a
payload without the `cpu_stats` keys, `get_resource_usage` raises `KeyError`
(only `NotFound` and `DockerException` are caught), and the error propagates
out of `check_container_status` as well. -/
theorem c3_counterexample :
    get_resource_usage (.found emptyStats) = .error .keyError
    ∧ check_container_status (.found { status := some "running", health := none })
        (.found emptyStats) "t1" = .error .keyError :=
  ⟨rfl, rfl⟩

/-- Per-interface requirement under which the networks loop cannot raise and
sums stay nonnegative. -/
def NetIf.complete (i : NetIf) : Prop :=
  i.rx_bytes.isSome = true ∧ 0 ≤ i.rx_bytes.getD 0
    ∧ i.tx_bytes.isSome = true ∧ 0 ≤ i.tx_bytes.getD 0

/-- Per-item requirement under which the blkio loop cannot raise and sums stay
nonnegative. -/
def BlkioItem.complete (it : BlkioItem) : Prop :=
  it.op.isSome = true ∧ it.value.isSome = true ∧ 0 ≤ it.value.getD 0

instance : DecidablePred NetIf.complete := fun i => by
  unfold NetIf.complete
  infer_instance

instance : DecidablePred BlkioItem.complete := fun it => by
  unfold BlkioItem.complete
  infer_instance

/-- The CPU percentage `get_resource_usage` derives from a payload. -/
def Stats.cpuValue (st : Stats) : ℚ :=
  computed_cpu_usage (st.cpu_total_usage.getD 0) (st.precpu_total_usage.getD 0)
    (st.cpu_system_cpu_usage.getD 0) (st.precpu_system_cpu_usage.getD 0)
    (st.cpu_percpu_usage.getD [])

/-- A well-formed stats payload: all keys that `get_resource_usage` reads
unconditionally are present, and the derived metrics satisfy the
`ResourceUsage` field bounds. -/
def Stats.wellFormed (st : Stats) : Prop :=
  st.cpu_total_usage.isSome = true
  ∧ st.precpu_total_usage.isSome = true
  ∧ st.cpu_system_cpu_usage.isSome = true
  ∧ st.precpu_system_cpu_usage.isSome = true
  ∧ st.cpu_percpu_usage.isSome = true
  ∧ st.memory_usage.isSome = true
  ∧ 0 ≤ st.memory_usage.getD 0
  ∧ (∀ i ∈ st.networks.getD [], i.complete)
  ∧ (∀ it ∈ st.blkio_io_service_bytes.getD [], it.complete)
  ∧ 0 ≤ st.pids_current.getD 0
  ∧ 0 ≤ st.cpuValue ∧ st.cpuValue ≤ 100

theorem sumNetworks_complete (l : List NetIf) (h : ∀ i ∈ l, i.complete) :
    ∃ rx tx : Int, sumNetworks l = .ok (rx, tx) ∧ 0 ≤ rx ∧ 0 ≤ tx := by
  induction l with
  | nil => exact ⟨0, 0, rfl, le_refl 0, le_refl 0⟩
  | cons i tl ih =>
      obtain ⟨h1, h2, h3, h4⟩ := h i (List.mem_cons_self i tl)
      obtain ⟨rx0, hrx⟩ := Option.isSome_iff_exists.mp h1
      obtain ⟨tx0, htx⟩ := Option.isSome_iff_exists.mp h3
      obtain ⟨rx, tx, hsum, hrx0, htx0⟩ := ih (fun j hj => h j (List.mem_cons_of_mem i hj))
      rw [hrx] at h2
      rw [htx] at h4
      refine ⟨rx0 + rx, tx0 + tx, ?_, by positivity, by positivity⟩
      simp [sumNetworks, req, hrx, htx, hsum, bind, Except.bind]

theorem sumBlkio_complete (l : List BlkioItem) (h : ∀ it ∈ l, it.complete) :
    ∃ br bw : Int, sumBlkio l = .ok (br, bw) ∧ 0 ≤ br ∧ 0 ≤ bw := by
  induction l with
  | nil => exact ⟨0, 0, rfl, le_refl 0, le_refl 0⟩
  | cons it tl ih =>
      obtain ⟨h1, h2, h3⟩ := h it (List.mem_cons_self it tl)
      obtain ⟨o, ho⟩ := Option.isSome_iff_exists.mp h1
      obtain ⟨v, hv⟩ := Option.isSome_iff_exists.mp h2
      rw [hv] at h3
      obtain ⟨br, bw, hsum, hbr, hbw⟩ := ih (fun j hj => h j (List.mem_cons_of_mem it hj))
      by_cases hr : o = "Read"
      · refine ⟨v + br, bw, ?_, by positivity, hbw⟩
        simp [sumBlkio, req, ho, hv, hr, hsum, bind, Except.bind]
      · by_cases hw : o = "Write"
        · refine ⟨br, v + bw, ?_, hbr, by positivity⟩
          simp [sumBlkio, req, ho, hv, hr, hw, hsum, bind, Except.bind]
        · refine ⟨br, bw, ?_, hbr, hbw⟩
          simp [sumBlkio, req, ho, hr, hw, hsum, bind, Except.bind]

theorem get_resource_usage_wellFormed (st : Stats) (h : st.wellFormed) :
    (get_resource_usage (.found st)).isOk = true := by
  obtain ⟨h1, h2, h3, h4, h5, h6, hmem, hnet, hblk, hpids, hcpu0, hcpu100⟩ := h
  obtain ⟨curT, hcurT⟩ := Option.isSome_iff_exists.mp h1
  obtain ⟨preT, hpreT⟩ := Option.isSome_iff_exists.mp h2
  obtain ⟨curS, hcurS⟩ := Option.isSome_iff_exists.mp h3
  obtain ⟨preS, hpreS⟩ := Option.isSome_iff_exists.mp h4
  obtain ⟨pc, hpc⟩ := Option.isSome_iff_exists.mp h5
  obtain ⟨mem, hmemv⟩ := Option.isSome_iff_exists.mp h6
  rw [hmemv] at hmem
  have hcpuv : st.cpuValue = computed_cpu_usage curT preT curS preS pc := by
    simp [Stats.cpuValue, hcurT, hpreT, hcurS, hpreS, hpc]
  rw [hcpuv] at hcpu0 hcpu100
  have hnetres : ∃ rx tx : Int,
      netStats st.networks = .ok (rx, tx) ∧ 0 ≤ rx ∧ 0 ≤ tx := by
    cases hn : st.networks with
    | none => exact ⟨0, 0, rfl, le_refl 0, le_refl 0⟩
    | some ifs =>
        rw [hn] at hnet
        simpa [netStats] using sumNetworks_complete ifs (by simpa using hnet)
  have hblkres : ∃ br bw : Int,
      blkStats st.blkio_io_service_bytes = .ok (br, bw) ∧ 0 ≤ br ∧ 0 ≤ bw := by
    cases hb : st.blkio_io_service_bytes with
    | none => exact ⟨0, 0, rfl, le_refl 0, le_refl 0⟩
    | some items =>
        rw [hb] at hblk
        simpa [blkStats] using sumBlkio_complete items (by simpa using hblk)
  obtain ⟨rx, tx, hnetok, hrx, htx⟩ := hnetres
  obtain ⟨br, bw, hblkok, hbr, hbw⟩ := hblkres
  have hvalid : ∀ q : ℚ, 0 ≤ q → q ≤ 100 →
      ResourceUsage.validB
        { cpu_usage := some q, memory_usage := some mem,
          network_rx := some rx, network_tx := some tx,
          block_read := some br, block_write := some bw,
          pids := some (st.pids_current.getD 0) } = true := by
    intro q hq0 hq100
    simp only [ResourceUsage.validB, Option.all, Bool.and_eq_true, decide_eq_true_eq]
    exact ⟨⟨⟨⟨⟨⟨⟨hq0, hq100⟩, hmem⟩, hrx⟩, htx⟩, hbr⟩, hbw⟩, hpids⟩
  by_cases hpos : 0 < curS - preS
  · have hv := hvalid _ hcpu0 hcpu100
    simp [get_resource_usage, req, hcurT, hpreT, hcurS, hpreS, hpc, hmemv, hpos,
      Except.map, bind, Except.bind, hnetok, hblkok, ResourceUsage.construct, hv,
      Except.isOk, Except.toBool, pure, Except.pure]
  · have hv := hvalid 0 (le_refl 0) (by norm_num)
    simp [get_resource_usage, req, hcurT, hpreT, hcurS, hpreS, hmemv, hpos,
      Except.map, bind, Except.bind, hnetok, hblkok, ResourceUsage.construct, hv,
      Except.isOk, Except.toBool, pure, Except.pure]

/-- C3 amended: the queries never raise for container-absent or daemon-failure
responses; `get_resource_usage` never raises when the stats payload is
well-formed (all required keys present, derived metrics within the
`ResourceUsage` bounds), in which case `check_container_status` also always
returns a status value; `health_check` returns `false` (not an exception) on
absence or daemon failure.  Exceptions occur only for a present container
whose stats payload is malformed or yields out-of-range metrics. -/
theorem c3_queries_no_throw_amended :
    (get_resource_usage (Probe.notFound) = .ok none
      ∧ get_resource_usage (Probe.daemonFailure) = .ok none)
    ∧ (∀ st : Stats, st.wellFormed → (get_resource_usage (.found st)).isOk = true)
    ∧ (∀ ps : Probe Stats, ∀ now : String,
        check_container_status .notFound ps now
            = .ok { status := .UNKNOWN, last_check := now }
          ∧ check_container_status .daemonFailure ps now
            = .ok { status := .ERROR, last_check := now })
    ∧ (∀ c : CtrView, ∀ ps : Probe Stats, ∀ now : String,
        (get_resource_usage ps).isOk = true →
        (check_container_status (.found c) ps now).isOk = true)
    ∧ (health_check .notFound = false ∧ health_check .daemonFailure = false) := by
  refine ⟨⟨rfl, rfl⟩, get_resource_usage_wellFormed, fun ps now => ⟨rfl, rfl⟩, ?_, rfl, rfl⟩
  intro c ps now hok
  cases hro : get_resource_usage ps with
  | error e => rw [hro] at hok; simp [Except.isOk, Except.toBool] at hok
  | ok ru => simp [check_container_status, hro, bind, Except.bind, Except.isOk, Except.toBool]

/-- C3 amended witness: the well-formed-payload clause of
`c3_queries_no_throw_amended` applied to the concrete example payload, and the
present-container clause applied on top of it. -/
theorem c3_queries_no_throw_witness :
    (get_resource_usage (.found exampleStats)).isOk = true
    ∧ (check_container_status (.found { status := some "running", health := none })
        (.found exampleStats) "t2").isOk = true := by
  have hwf : exampleStats.wellFormed := by
    refine ⟨rfl, rfl, rfl, rfl, rfl, rfl, by norm_num [exampleStats], by decide, by decide,
      by norm_num [exampleStats], ?_, ?_⟩
    · show (0 : ℚ) ≤ exampleStats.cpuValue
      norm_num [Stats.cpuValue, exampleStats, computed_cpu_usage]
    · show exampleStats.cpuValue ≤ 100
      norm_num [Stats.cpuValue, exampleStats, computed_cpu_usage]
  have h1 := c3_queries_no_throw_amended.2.1 exampleStats hwf
  exact ⟨h1, c3_queries_no_throw_amended.2.2.2.1
    { status := some "running", health := none } (.found exampleStats) "t2" h1⟩

/-! The registry data model (`msm/data/models.py`). -/

/-- A JSON/YAML-style structured value, used to model Python `Any`-typed
payloads (`health_check: Optional[Dict[str, Any]]`, mount descriptors) and
the document produced by `model_dump(mode="json")`. -/
inductive YVal where
  | nullv
  | boolv (b : Bool)
  | intv (n : Int)
  | ratv (q : ℚ)
  | strv (s : String)
  | arrv (xs : List YVal)
  | objv (fields : List (String × YVal))

/-- `MCPServerConfig` (models.py lines 15-47).  Python dicts are modelled as
association lists, datetimes by their ISO string form. -/
structure MCPServerConfig where
  name : String
  docker_command : String
  host : String := "localhost"
  port : Option Int := none
  description : Option String := none
  environment : List (String × String) := []
  volumes : List String := []
  networks : List String := []
  labels : List (String × String) := []
  auto_start : Bool := false
  restart_policy : String := "no"
  health_check : Option (List (String × YVal)) := none
  created_at : String := "t0"
  updated_at : String := "t0"

/-- `ContainerInfo` (models.py lines 76-86): `ports` maps "port/proto" keys to
lists of host-binding string dictionaries, `mounts` is a list of arbitrary
dictionaries. -/
structure ContainerInfo where
  container_id : Option String := none
  container_name : Option String := none
  image : Option String := none
  image_id : Option String := none
  ports : List (String × List (List (String × String))) := []
  mounts : List (List (String × YVal)) := []

/-- `MCPServerData` (models.py lines 191-219). -/
structure MCPServerData where
  config : MCPServerConfig
  status : MCPServerStatus
  container_info : Option ContainerInfo := none

/-- `ServerRegistry` (models.py lines 234-316).  The `servers` dict is an
association list in insertion order (Python dicts preserve insertion order). -/
structure ServerRegistry where
  servers : List (String × MCPServerData) := []
  last_updated : String := "t0"
  version : String := "1.0.0"

def ServerRegistry.keys (R : ServerRegistry) : List String := R.servers.map Prod.fst

/-- Membership test `name in self.servers`. -/
def ServerRegistry.hasKey (R : ServerRegistry) (n : String) : Bool :=
  R.servers.any (fun p => p.1 == n)

/-- The `MCPServerStatus(status=ServerStatus.UNKNOWN)` default that
`add_server` installs; its `last_check` default factory is the current time. -/
def defaultStatus (now : String) : MCPServerStatus :=
  { status := .UNKNOWN, last_check := now }

/-- `ServerRegistry.add_server` (models.py lines 245-253). -/
def ServerRegistry.add_server (R : ServerRegistry) (cfg : MCPServerConfig) (now : String) :
    ServerRegistry × Bool :=
  if R.hasKey cfg.name then (R, false)
  else
    ({ R with
        servers := R.servers ++ [(cfg.name, { config := cfg, status := defaultStatus now })],
        last_updated := now }, true)

/-- `ServerRegistry.remove_server` (models.py lines 255-262); `del` of the
unique key is expressed as a filter. -/
def ServerRegistry.remove_server (R : ServerRegistry) (n : String) (now : String) :
    ServerRegistry × Bool :=
  if R.hasKey n then
    ({ R with servers := R.servers.filter (fun p => !(p.1 == n)), last_updated := now }, true)
  else (R, false)

/-- `ServerRegistry.update_server_status` (models.py lines 272-279). -/
def ServerRegistry.update_server_status (R : ServerRegistry) (n : String)
    (st : MCPServerStatus) (now : String) : ServerRegistry × Bool :=
  if R.hasKey n then
    ({ R with
        servers := R.servers.map
          (fun p => if p.1 == n then (p.1, { p.2 with status := st }) else p),
        last_updated := now }, true)
  else (R, false)

/-- `ServerRegistry.update_server_config` (models.py lines 281-288): replaces
the record's config in place, without touching the key. -/
def ServerRegistry.update_server_config (R : ServerRegistry) (n : String)
    (cfg : MCPServerConfig) (now : String) : ServerRegistry × Bool :=
  if R.hasKey n then
    ({ R with
        servers := R.servers.map
          (fun p => if p.1 == n then (p.1, { p.2 with config := cfg }) else p),
        last_updated := now }, true)
  else (R, false)

/-- One mutating registry operation together with the wall-clock time at which
it runs. -/
inductive RegOp where
  | addOp (cfg : MCPServerConfig) (now : String)
  | removeOp (name : String) (now : String)
  | updStatusOp (name : String) (st : MCPServerStatus) (now : String)
  | updConfigOp (name : String) (cfg : MCPServerConfig) (now : String)

def applyOp (R : ServerRegistry) : RegOp → ServerRegistry
  | .addOp cfg now => (R.add_server cfg now).1
  | .removeOp n now => (R.remove_server n now).1
  | .updStatusOp n st now => (R.update_server_status n st now).1
  | .updConfigOp n cfg now => (R.update_server_config n cfg now).1

def emptyRegistry : ServerRegistry := {}

/-- The registry state reached by running a sequence of operations from the
empty registry. -/
def applyOps (ops : List RegOp) : ServerRegistry := ops.foldl applyOp emptyRegistry

/-- No duplicate names. -/
def ServerRegistry.NodupKeys (R : ServerRegistry) : Prop := R.keys.Nodup

/-- Every key equals the contained record's config name. -/
def ServerRegistry.KeysMatchConfig (R : ServerRegistry) : Prop :=
  ∀ p ∈ R.servers, p.2.config.name = p.1

/-- An `update_server_config` call whose new config keeps the target name. -/
def RegOp.configConsistent : RegOp → Prop
  | .updConfigOp n cfg _ => cfg.name = n
  | _ => True

theorem hasKey_iff (R : ServerRegistry) (n : String) :
    R.hasKey n = true ↔ n ∈ R.keys := by
  simp [ServerRegistry.hasKey, ServerRegistry.keys, List.any_eq_true, List.mem_map]

theorem map_fst_map_eq {β : Type} (l : List (String × β)) (f : String × β → String × β)
    (hf : ∀ p, (f p).1 = p.1) : (l.map f).map Prod.fst = l.map Prod.fst := by
  rw [List.map_map]
  exact List.map_congr_left (fun p _ => hf p)

theorem applyOp_nodup (R : ServerRegistry) (op : RegOp) (h : R.NodupKeys) :
    (applyOp R op).NodupKeys := by
  cases op with
  | addOp cfg now =>
      by_cases hk : R.hasKey cfg.name
      · simp [applyOp, ServerRegistry.add_server, hk]
        exact h
      · simp only [applyOp, ServerRegistry.add_server, hk, if_false, Bool.false_eq_true]
        have hnotin : cfg.name ∉ R.keys := fun hmem => hk ((hasKey_iff R cfg.name).mpr hmem)
        unfold ServerRegistry.NodupKeys ServerRegistry.keys at h ⊢
        simp only [List.map_append, List.map_cons, List.map_nil]
        rw [List.nodup_append]
        refine ⟨h, List.nodup_singleton _, ?_⟩
        intro a ha hb
        simp only [List.mem_singleton] at hb
        subst hb
        exact hnotin ha
  | removeOp n now =>
      by_cases hk : R.hasKey n
      · simp only [applyOp, ServerRegistry.remove_server, hk, if_true]
        unfold ServerRegistry.NodupKeys ServerRegistry.keys at h ⊢
        exact h.sublist (List.Sublist.map Prod.fst (List.filter_sublist R.servers))
      · simp [applyOp, ServerRegistry.remove_server, hk]
        exact h
  | updStatusOp n st now =>
      by_cases hk : R.hasKey n
      · simp only [applyOp, ServerRegistry.update_server_status, hk, if_true]
        unfold ServerRegistry.NodupKeys ServerRegistry.keys at h ⊢
        rw [map_fst_map_eq R.servers
          (fun p => if p.1 == n then (p.1, { p.2 with status := st }) else p)
          (fun p => by by_cases hp : p.1 == n <;> simp [hp])]
        exact h
      · simp [applyOp, ServerRegistry.update_server_status, hk]
        exact h
  | updConfigOp n cfg now =>
      by_cases hk : R.hasKey n
      · simp only [applyOp, ServerRegistry.update_server_config, hk, if_true]
        unfold ServerRegistry.NodupKeys ServerRegistry.keys at h ⊢
        rw [map_fst_map_eq R.servers
          (fun p => if p.1 == n then (p.1, { p.2 with config := cfg }) else p)
          (fun p => by by_cases hp : p.1 == n <;> simp [hp])]
        exact h
      · simp [applyOp, ServerRegistry.update_server_config, hk]
        exact h

theorem applyOp_keysMatch (R : ServerRegistry) (op : RegOp) (h : R.KeysMatchConfig)
    (hop : op.configConsistent) : (applyOp R op).KeysMatchConfig := by
  cases op with
  | addOp cfg now =>
      by_cases hk : R.hasKey cfg.name
      · simpa [applyOp, ServerRegistry.add_server, hk] using h
      · simp only [applyOp, ServerRegistry.add_server, hk, if_false, Bool.false_eq_true]
        intro p hp
        rcases List.mem_append.mp hp with hmem | hmem
        · exact h p hmem
        · simp only [List.mem_singleton] at hmem
          subst hmem
          rfl
  | removeOp n now =>
      by_cases hk : R.hasKey n
      · simp only [applyOp, ServerRegistry.remove_server, hk, if_true]
        intro p hp
        exact h p (List.mem_of_mem_filter hp)
      · simpa [applyOp, ServerRegistry.remove_server, hk] using h
  | updStatusOp n st now =>
      by_cases hk : R.hasKey n
      · simp only [applyOp, ServerRegistry.update_server_status, hk, if_true]
        intro p hp
        rcases List.mem_map.mp hp with ⟨q, hq, rfl⟩
        by_cases hqn : q.1 == n <;> simp [hqn] <;> exact h q hq
      · simpa [applyOp, ServerRegistry.update_server_status, hk] using h
  | updConfigOp n cfg now =>
      by_cases hk : R.hasKey n
      · simp only [applyOp, ServerRegistry.update_server_config, hk, if_true]
        intro p hp
        rcases List.mem_map.mp hp with ⟨q, hq, rfl⟩
        by_cases hqn : q.1 == n
        · simp only [hqn, if_true]
          have : q.1 = n := by simpa using hqn
          simpa [this] using hop
        · simp only [hqn, Bool.false_eq_true, if_false]
          exact h q hq
      · simpa [applyOp, ServerRegistry.update_server_config, hk] using h

theorem foldl_applyOp_nodup (ops : List RegOp) :
    ∀ R : ServerRegistry, R.NodupKeys → (ops.foldl applyOp R).NodupKeys := by
  induction ops with
  | nil => exact fun R h => h
  | cons op tl ih =>
      intro R h
      exact ih (applyOp R op) (applyOp_nodup R op h)

theorem foldl_applyOp_keysMatch (ops : List RegOp) :
    ∀ R : ServerRegistry, R.KeysMatchConfig → (∀ op ∈ ops, op.configConsistent) →
      (ops.foldl applyOp R).KeysMatchConfig := by
  induction ops with
  | nil => exact fun R h _ => h
  | cons op tl ih =>
      intro R h hc
      exact ih (applyOp R op)
        (applyOp_keysMatch R op h (hc op (List.mem_cons_self op tl)))
        (fun o ho => hc o (List.mem_cons_of_mem op ho))

def cfgA : MCPServerConfig := { name := "aa", docker_command := "docker run imga" }

def cfgB : MCPServerConfig := { name := "bb", docker_command := "docker run imgb" }

/-- C4 counterexample: the claim says every reachable registry state keys each
record by its config name, but `update_server_config` replaces the config in
place without renaming the key, so adding "aa" and then updating it with a
config named "bb" reaches a state whose key "aa" holds a record whose config
name is "bb". -/
theorem c4_counterexample :
    ¬ ((applyOps [RegOp.addOp cfgA "t1", RegOp.updConfigOp "aa" cfgB "t2"]).NodupKeys
      ∧ (applyOps [RegOp.addOp cfgA "t1",
          RegOp.updConfigOp "aa" cfgB "t2"]).KeysMatchConfig) := by
  intro h
  have hR : (applyOps [RegOp.addOp cfgA "t1", RegOp.updConfigOp "aa" cfgB "t2"]).servers
      = [("aa", { config := cfgB, status := defaultStatus "t1" })] := rfl
  have hmem : ("aa", ({ config := cfgB, status := defaultStatus "t1" } : MCPServerData))
      ∈ (applyOps [RegOp.addOp cfgA "t1", RegOp.updConfigOp "aa" cfgB "t2"]).servers := by
    rw [hR]
    exact List.mem_singleton_self _
  have := h.2 _ hmem
  simp [cfgB] at this

/-- C4 amended: in every state reachable from the empty registry there are no
duplicate names; and every key equals the contained record's config name
provided every `update_server_config` in the sequence passes a config whose
name equals the target key (the code never renames a key on config update). -/
theorem c4_registry_invariant_amended (ops : List RegOp) :
    (applyOps ops).NodupKeys
    ∧ ((∀ op ∈ ops, op.configConsistent) → (applyOps ops).KeysMatchConfig) := by
  refine ⟨foldl_applyOp_nodup ops emptyRegistry (by simp [emptyRegistry,
    ServerRegistry.NodupKeys, ServerRegistry.keys]), fun hc => ?_⟩
  exact foldl_applyOp_keysMatch ops emptyRegistry (by intro p hp; cases hp) hc

/-- C4 amended witness: the invariant instantiated on a concrete consistent
operation sequence. -/
theorem c4_registry_invariant_witness :
    (applyOps [RegOp.addOp cfgA "t1", RegOp.updConfigOp "aa"
        { cfgA with docker_command := "docker run imga2" } "t2"]).NodupKeys
    ∧ (applyOps [RegOp.addOp cfgA "t1", RegOp.updConfigOp "aa"
        { cfgA with docker_command := "docker run imga2" } "t2"]).KeysMatchConfig := by
  have h := c4_registry_invariant_amended [RegOp.addOp cfgA "t1", RegOp.updConfigOp "aa"
    { cfgA with docker_command := "docker run imga2" } "t2"]
  refine ⟨h.1, h.2 ?_⟩
  intro op hop
  simp only [List.mem_cons, List.not_mem_nil, or_false] at hop
  rcases hop with rfl | rfl
  · trivial
  · exact rfl

/-- C10: `add_server` with an already-registered name returns `False` and
leaves the registry completely unchanged (servers, version and `last_updated`
all untouched): the name check happens before any mutation. -/
theorem c10_add_existing (R : ServerRegistry) (cfg : MCPServerConfig) (now : String)
    (h : R.hasKey cfg.name = true) :
    R.add_server cfg now = (R, false) := by
  simp [ServerRegistry.add_server, h]

/-- C10 witness: adding `cfgA` twice; the second call fails atomically. -/
theorem c10_add_existing_witness :
    (applyOps [RegOp.addOp cfgA "t1"]).add_server cfgA "t9"
      = (applyOps [RegOp.addOp cfgA "t1"], false) :=
  c10_add_existing _ cfgA "t9" rfl

/-! Run-spec translation and container lifecycle (`container_manager.py`). -/

/-- Whitespace tokenizer: `shlex.split` restricted to quote-free commands
(every docker command handled by this repository is quote-free; on such input
`shlex.split` is exactly whitespace splitting). -/
def shlexTokens : List Char → List Char → List String
  | [], cur => if cur.isEmpty then [] else [String.mk cur.reverse]
  | c :: cs, cur =>
      if c = ' ' then
        if cur.isEmpty then shlexTokens cs []
        else String.mk cur.reverse :: shlexTokens cs []
      else shlexTokens cs (c :: cur)

def shlexSplit (s : String) : List String := shlexTokens s.toList []

/-- The `restart_policy` dictionary built by `_parse_docker_command`. -/
structure RestartPolicy where
  policyName : String
  maximumRetryCount : Option Nat := none
deriving DecidableEq, Repr

/-- The keyword-argument set `_parse_docker_command` produces for
`client.containers.run`; an empty `ports` list models the absent key. -/
structure RunParams where
  image : String
  name : String
  detach : Bool
  environment : List (String × String)
  volumes : List String
  labels : List (String × String)
  restart_policy : RestartPolicy
  ports : List (String × Int)
deriving DecidableEq, Repr

/-- Python dict assignment `ports[key] = value`: overwrite in place if the key
exists, else append. -/
def updateAssoc (l : List (String × Int)) (k : String) (v : Int) : List (String × Int) :=
  if l.any (fun p => p.1 == k) then l.map (fun p => if p.1 == k then (k, v) else p)
  else l ++ [(k, v)]

/-- The port-scanning loop of `_parse_docker_command` (container_manager.py
lines 76-82): at each index, if the token is `-p`/`--publish` and a next token
exists, split that next token on ":" into exactly a `host:container` pair
(`ValueError` otherwise, from tuple unpacking) and parse the host port as an
int (`ValueError` otherwise); the loop then continues from the next index. -/
def parsePortsGo (acc : List (String × Int)) : List String → Except PyErr (List (String × Int))
  | [] => .ok acc
  | x :: rest =>
      if (x == "-p" || x == "--publish") && !rest.isEmpty then
        match rest with
        | [] => .ok acc
        | v :: _ =>
            match v.splitOn ":" with
            | [hostPort, containerPort] =>
                match hostPort.toInt? with
                | some hp => parsePortsGo (updateAssoc acc (containerPort ++ "/tcp") hp) rest
                | none => .error .valueError
            | _ => .error .valueError
      else parsePortsGo acc rest

/-- `ContainerManager._parse_docker_command` (container_manager.py lines
49-84): tokenizes `config.docker_command`; raises `ValueError` ("只支持
'docker run' 命令") when the token list is empty, the first token is not
"docker", or the second token is not "run" — except that a one-token command
"docker" raises `IndexError` from the unguarded `parts[1]` access.  The image
is the last token; recognized options are environment, volumes, labels,
restart policy (retry count 5 when "on-failure") and `-p`/`--publish` port
pairs; all other flags are silently ignored.  Pure: no daemon calls. -/
def parseTokens (cfg : MCPServerConfig) : List String → Except PyErr RunParams
  | [] => .error .valueError
  | p0 :: rest =>
      if p0 = "docker" then
        match rest with
        | [] => .error .indexError
        | p1 :: _ =>
            if p1 = "run" then
              let rp : RestartPolicy :=
                { policyName := cfg.restart_policy,
                  maximumRetryCount :=
                    if cfg.restart_policy = "on-failure" then some 5 else none }
              match parsePortsGo [] (p0 :: rest) with
              | .error e => .error e
              | .ok ports =>
                  .ok { image := (p0 :: rest).getLast (List.cons_ne_nil p0 rest),
                        name := cfg.name, detach := true,
                        environment := cfg.environment, volumes := cfg.volumes,
                        labels := cfg.labels, restart_policy := rp, ports := ports }
            else .error .valueError
      else .error .valueError

def parseDockerCommand (cfg : MCPServerConfig) : Except PyErr RunParams :=
  parseTokens cfg (shlexSplit cfg.docker_command)

theorem parse_assigns_config_name (cfg : MCPServerConfig) (ps : RunParams)
    (h : parseDockerCommand cfg = .ok ps) : ps.name = cfg.name := by
  unfold parseDockerCommand at h
  cases hpt : shlexSplit cfg.docker_command with
  | nil => rw [hpt] at h; simp [parseTokens] at h
  | cons p0 rest =>
      rw [hpt] at h
      by_cases h0 : p0 = "docker"
      · cases rest with
        | nil => simp [parseTokens, h0] at h
        | cons p1 tl =>
            by_cases h1 : p1 = "run"
            · cases hpp : parsePortsGo [] (p0 :: p1 :: tl) with
              | error e =>
                  rw [h0, h1] at hpp
                  simp [parseTokens, h0, h1, hpp] at h
              | ok prt =>
                  rw [h0, h1] at hpp
                  simp only [parseTokens, h0, h1, if_true, hpp] at h
                  simp only [Except.ok.injEq] at h
                  subst h
                  rfl
            · simp [parseTokens, h0, h1] at h
      · simp [parseTokens, h0] at h

/-- A config whose command carries a flag outside the supported option set. -/
def cfgNet : MCPServerConfig :=
  { name := "web", docker_command := "docker run --network host img" }

/-- C7 counterexample: the claim says any run descriptor that does not resolve
to an image plus flags in the supported option set is rejected with the
translation error, but `--network host` is outside the supported set and the
translator accepts the command anyway, silently dropping the flag. -/
theorem c7_counterexample :
    parseDockerCommand cfgNet
      = .ok { image := "img", name := "web", detach := true, environment := [],
              volumes := [], labels := [],
              restart_policy := { policyName := "no", maximumRetryCount := none },
              ports := [] } := rfl

/-- C7 amended: the translator rejects, with `ValueError` (or `IndexError`
for the one-token command "docker"), every config whose command does not
tokenize to a list starting with "docker" "run", and performs no daemon
calls (it is a pure function of the config); however a well-formed
"docker run ..." command with flags outside the supported set is accepted and
the unknown flags are silently ignored (only malformed `-p`/`--publish` values
are rejected, with `ValueError`). -/
theorem c7_translator_rejects (cfg : MCPServerConfig)
    (h : (shlexSplit cfg.docker_command).take 2 ≠ ["docker", "run"]) :
    ∃ e, parseDockerCommand cfg = .error e ∧ (e = .valueError ∨ e = .indexError) := by
  cases hpt : shlexSplit cfg.docker_command with
  | nil => exact ⟨.valueError, by simp [parseDockerCommand, parseTokens, hpt], Or.inl rfl⟩
  | cons p0 rest =>
      by_cases h0 : p0 = "docker"
      · cases rest with
        | nil =>
            exact ⟨.indexError, by simp [parseDockerCommand, parseTokens, hpt, h0], Or.inr rfl⟩
        | cons p1 tl =>
            by_cases h1 : p1 = "run"
            · exfalso
              apply h
              rw [hpt, h0, h1]
              rfl
            · exact ⟨.valueError,
                by simp [parseDockerCommand, parseTokens, hpt, h0, h1], Or.inl rfl⟩
      · exact ⟨.valueError, by simp [parseDockerCommand, parseTokens, hpt, h0], Or.inl rfl⟩

/-- C7 amended witness: `c7_translator_rejects` applied to the concrete
non-run command "docker ps". -/
theorem c7_translator_rejects_witness :
    ∃ e, parseDockerCommand { name := "x", docker_command := "docker ps" } = .error e
      ∧ (e = .valueError ∨ e = .indexError) :=
  c7_translator_rejects { name := "x", docker_command := "docker ps" } (by decide)

/-- A daemon-side container: its id (`None` possible, defensively checked by
the code), name, and status string. -/
structure DCtr where
  cid : Option String
  name : String
  status : String
deriving DecidableEq, Repr

/-- `client.containers.get(key)` accepts a container id or name. -/
def DCtr.matchesKey (c : DCtr) (key : String) : Bool :=
  c.cid == some key || c.name == key

/-- The daemon state: its containers, in creation order. -/
structure Daemon where
  containers : List DCtr
deriving DecidableEq, Repr

def Daemon.get (d : Daemon) (key : String) : Option DCtr :=
  d.containers.find? (fun c => c.matchesKey key)

/-- `container.start()` on the container `get` returned (the first match):
the daemon moves it to "running". -/
def setRunningFirst : List DCtr → String → List DCtr
  | [], _ => []
  | c :: tl, key =>
      if c.matchesKey key then { c with status := "running" } :: tl
      else c :: setRunningFirst tl key

def Daemon.startExisting (d : Daemon) (key : String) : Daemon :=
  ⟨setRunningFirst d.containers key⟩

/-- `container.remove(...)` on the container `get` returned. -/
def removeFirst : List DCtr → String → List DCtr
  | [], _ => []
  | c :: tl, key => if c.matchesKey key then tl else c :: removeFirst tl key

def Daemon.removeKey (d : Daemon) (key : String) : Daemon :=
  ⟨removeFirst d.containers key⟩

/-- `ContainerManager.start_container` (container_manager.py lines 86-132)
against a well-behaved daemon.  The result carries the returned container id,
the daemon state afterwards, and the number of image-pull/create invocations
performed by the call (the pull-then-`containers.run` path).  An existing
running container returns its id unchanged; an existing stopped container is
started; otherwise the config is translated (errors propagate), the image
pulled, and a fresh running container created.  The defensive
`if not container.id` checks raise `DockerException`. -/
def start_container (d : Daemon) (cfg : MCPServerConfig) (freshId : String) :
    Except PyErr (String × Daemon × Nat) :=
  match d.get cfg.name with
  | some c =>
      if c.status = "running" then
        match c.cid with
        | some i => if i = "" then .error .dockerException else .ok (i, d, 0)
        | none => .error .dockerException
      else
        let d1 := d.startExisting cfg.name
        match c.cid with
        | some i => if i = "" then .error .dockerException else .ok (i, d1, 0)
        | none => .error .dockerException
  | none =>
      match parseDockerCommand cfg with
      | .error e => .error e
      | .ok ps =>
          if freshId = "" then .error .dockerException
          else
            .ok (freshId,
              ⟨d.containers ++ [{ cid := some freshId, name := ps.name, status := "running" }]⟩,
              1)

/-- Precondition of the daemon-level remove primitive: removing a running
container succeeds only with `force`. -/
def removeOk (c : DCtr) (force : Bool) : Bool :=
  force || !(c.status == "running")

/-- `ContainerManager.remove_container` (container_manager.py lines 177-195):
`NotFound` is treated as success; otherwise the container is removed with
`force=True`. -/
def remove_container (d : Daemon) (key : String) : Except PyErr (Bool × Daemon) :=
  match d.get key with
  | none => .ok (true, d)
  | some c =>
      if removeOk c true then .ok (true, d.removeKey key)
      else .error .dockerException

theorem find?_setRunningFirst (l : List DCtr) (key : String) (c : DCtr)
    (h : l.find? (fun x => x.matchesKey key) = some c) :
    (setRunningFirst l key).find? (fun x => x.matchesKey key)
      = some { c with status := "running" } := by
  induction l with
  | nil => cases h
  | cons x tl ih =>
      by_cases hx : x.matchesKey key
      · rw [List.find?_cons_of_pos (p := fun y => y.matchesKey key) tl hx] at h
        injection h with h
        subst h
        simp only [setRunningFirst]
        rw [if_pos hx]
        exact List.find?_cons_of_pos tl
          (show ({ x with status := "running" } : DCtr).matchesKey key = true from hx)
      · rw [List.find?_cons_of_neg (p := fun y => y.matchesKey key) tl hx] at h
        simp only [setRunningFirst]
        rw [if_neg hx]
        rw [List.find?_cons_of_neg (p := fun y => y.matchesKey key) (setRunningFirst tl key) hx]
        exact ih h

theorem find?_append_of_none {α : Type} (l₁ l₂ : List α) (p : α → Bool)
    (h : l₁.find? p = none) : (l₁ ++ l₂).find? p = l₂.find? p := by
  induction l₁ with
  | nil => rfl
  | cons x tl ih =>
      by_cases hx : p x
      · rw [List.find?_cons_of_pos tl hx] at h; cases h
      · rw [List.cons_append, List.find?_cons_of_neg (tl ++ l₂) hx]
        exact ih (by rwa [List.find?_cons_of_neg tl hx] at h)

/-- C5: `start_container` is idempotent while the named container remains
running: after a successful start, starting the same config again returns the
same container id, leaves the daemon unchanged, performs no pull/create, and
the pull/create path was invoked at most once across both calls. -/
theorem c5_start_idempotent (d : Daemon) (cfg : MCPServerConfig) (f1 f2 : String)
    (id1 : String) (d1 : Daemon) (n1 : Nat)
    (h : start_container d cfg f1 = .ok (id1, d1, n1)) :
    start_container d1 cfg f2 = .ok (id1, d1, 0) ∧ n1 ≤ 1 := by
  unfold start_container at h
  cases hg : d.get cfg.name with
  | some c =>
      simp only [hg] at h
      by_cases hrun : c.status = "running"
      · rw [if_pos hrun] at h
        cases hcid : c.cid with
        | none => simp only [hcid] at h; exact Except.noConfusion h
        | some i =>
            simp only [hcid] at h
            by_cases hi : i = ""
            · rw [if_pos hi] at h; exact Except.noConfusion h
            · rw [if_neg hi] at h
              simp only [Except.ok.injEq, Prod.mk.injEq] at h
              obtain ⟨rfl, rfl, rfl⟩ := h
              refine ⟨?_, by omega⟩
              unfold start_container
              simp [hg, hrun, hcid, hi]
      · rw [if_neg hrun] at h
        cases hcid : c.cid with
        | none => simp only [hcid] at h; exact Except.noConfusion h
        | some i =>
            simp only [hcid] at h
            by_cases hi : i = ""
            · rw [if_pos hi] at h; exact Except.noConfusion h
            · rw [if_neg hi] at h
              simp only [Except.ok.injEq, Prod.mk.injEq] at h
              obtain ⟨rfl, rfl, rfl⟩ := h
              refine ⟨?_, by omega⟩
              have hg1 : (d.startExisting cfg.name).get cfg.name
                  = some { c with status := "running" } :=
                find?_setRunningFirst d.containers cfg.name c hg
              unfold start_container
              simp [hg1, hcid, hi]
  | none =>
      simp only [hg] at h
      cases hp : parseDockerCommand cfg with
      | error e => simp only [hp] at h; exact Except.noConfusion h
      | ok ps =>
          simp only [hp] at h
          by_cases hf : f1 = ""
          · rw [if_pos hf] at h; exact Except.noConfusion h
          · rw [if_neg hf] at h
            simp only [Except.ok.injEq, Prod.mk.injEq] at h
            obtain ⟨rfl, rfl, rfl⟩ := h
            refine ⟨?_, by omega⟩
            have hname : ({ cid := some f1, name := ps.name, status := "running" } : DCtr).matchesKey cfg.name
                = true := by
              simp [DCtr.matchesKey, parse_assigns_config_name cfg ps hp]
            have hg1 : (Daemon.mk (d.containers
                ++ [{ cid := some f1, name := ps.name, status := "running" }])).get cfg.name
                = some { cid := some f1, name := ps.name, status := "running" } := by
              unfold Daemon.get
              rw [find?_append_of_none d.containers _ _ hg]
              exact List.find?_cons_of_pos _ hname
            unfold start_container
            simp [hg1, hf]

/-- The demo config used by concrete lifecycle witnesses. -/
def cfgDemo : MCPServerConfig := { name := "srv", docker_command := "docker run img" }

/-- C5 witness: starting `cfgDemo` on an empty daemon creates a running
container with id "a" (one pull/create); `c5_start_idempotent` then gives that
the second start returns "a" again with zero pulls. -/
theorem c5_start_idempotent_witness :
    start_container ⟨[{ cid := some "a", name := "srv", status := "running" }]⟩ cfgDemo "b"
        = .ok ("a", ⟨[{ cid := some "a", name := "srv", status := "running" }]⟩, 0)
    ∧ 1 ≤ 1 :=
  c5_start_idempotent ⟨[]⟩ cfgDemo "a" "b" "a"
    ⟨[{ cid := some "a", name := "srv", status := "running" }]⟩ 1 rfl

/-- C6: `remove_container` on an absent key returns `true` with the daemon
unchanged (not `false`, not an error); on a present container it removes it
with `force=True` and returns `true` — even when the container is running,
where an unforced daemon-level remove would fail. -/
theorem c6_remove_semantics (d : Daemon) (key : String) :
    (d.get key = none → remove_container d key = .ok (true, d))
    ∧ (∀ c, d.get key = some c →
        remove_container d key = .ok (true, d.removeKey key))
    ∧ (∀ c, d.get key = some c → c.status = "running" →
        removeOk c false = false ∧ removeOk c true = true) := by
  refine ⟨fun h => by simp [remove_container, h], fun c h => ?_, fun c h hr => ?_⟩
  · simp [remove_container, h, removeOk]
  · simp [removeOk, hr]

def demoCtr : DCtr := { cid := some "c1", name := "srv", status := "running" }

def demoDaemon : Daemon := ⟨[demoCtr]⟩

/-- C6 witness: `c6_remove_semantics` applied to a one-container daemon, for
an absent key and for the present (running) container. -/
theorem c6_remove_semantics_witness :
    remove_container demoDaemon "zzz" = .ok (true, demoDaemon)
    ∧ remove_container demoDaemon "srv" = .ok (true, demoDaemon.removeKey "srv")
    ∧ removeOk demoCtr false = false ∧ removeOk demoCtr true = true :=
  ⟨(c6_remove_semantics demoDaemon "zzz").1 rfl,
   (c6_remove_semantics demoDaemon "srv").2.1 demoCtr rfl,
   ((c6_remove_semantics demoDaemon "srv").2.2 demoCtr rfl rfl).1,
   ((c6_remove_semantics demoDaemon "srv").2.2 demoCtr rfl rfl).2⟩

/-! `MCPServerManager.stop_all_servers` (mcp_manager.py lines 124-134). -/

/-- The result-accumulating loop of `stop_all_servers`, generic over the
behaviour of `self.stop_server` (a function of the server name and the
manager/daemon state).  `results[name] = self.stop_server(name)` inserts into
a fresh dict in call order, so the result list is in call order. -/
def stopLoop {σ : Type} (stopOne : String → σ → Bool × σ) :
    List String → σ → List (String × Bool) × σ
  | [], s => ([], s)
  | n :: tl, s =>
      let r := stopOne n s
      let rest := stopLoop stopOne tl r.2
      ((n, r.1) :: rest.1, rest.2)

/-- `MCPServerManager.stop_all_servers`: iterates
`reversed(list(self.registry.servers.keys()))`, stopping each named server. -/
def stop_all_servers {σ : Type} (stopOne : String → σ → Bool × σ)
    (R : ServerRegistry) (s : σ) : List (String × Bool) × σ :=
  stopLoop stopOne R.keys.reverse s

theorem stopLoop_map_fst {σ : Type} (stopOne : String → σ → Bool × σ) :
    ∀ (names : List String) (s : σ),
      ((stopLoop stopOne names s).1).map Prod.fst = names := by
  intro names
  induction names with
  | nil => intro s; rfl
  | cons n tl ih => intro s; simp [stopLoop, ih]

/-- C8: for every per-server stop behaviour, every registry and every starting
state, `stop_all_servers` produces its name→success entries in exactly the
reverse of the registration (key) order; hence every registered name is
processed exactly once and receives an entry even when other stops fail (no
rollback). -/
theorem c8_stop_all_reverse {σ : Type} (stopOne : String → σ → Bool × σ)
    (R : ServerRegistry) (s : σ) :
    ((stop_all_servers stopOne R s).1).map Prod.fst = R.keys.reverse
    ∧ (∀ n ∈ R.keys, ∃ b, (n, b) ∈ (stop_all_servers stopOne R s).1) := by
  have hmap : ((stop_all_servers stopOne R s).1).map Prod.fst = R.keys.reverse :=
    stopLoop_map_fst stopOne R.keys.reverse s
  refine ⟨hmap, ?_⟩
  intro n hn
  have h1 : n ∈ ((stop_all_servers stopOne R s).1).map Prod.fst := by
    rw [hmap]
    exact List.mem_reverse.mpr hn
  rcases List.mem_map.mp h1 with ⟨p, hp, rfl⟩
  exact ⟨p.2, hp⟩

/-- C8 witness: a two-server registry (registered "aa" then "bb") with an
always-failing stop: entries come out as ["bb", "aa"] and "aa" still gets an
entry. -/
theorem c8_stop_all_reverse_witness :
    ((stop_all_servers (fun _ s => (false, s))
        (applyOps [RegOp.addOp cfgA "t1", RegOp.addOp cfgB "t2"]) ()).1).map Prod.fst
      = ["bb", "aa"]
    ∧ ∃ b, ("aa", b) ∈ (stop_all_servers (fun _ s => (false, s))
        (applyOps [RegOp.addOp cfgA "t1", RegOp.addOp cfgB "t2"]) ()).1 := by
  have h := c8_stop_all_reverse (fun _ s => (false, s))
    (applyOps [RegOp.addOp cfgA "t1", RegOp.addOp cfgB "t2"]) ()
  exact ⟨h.1.trans rfl, h.2 "aa" (by simp [applyOps, applyOp, ServerRegistry.add_server,
    ServerRegistry.keys, ServerRegistry.hasKey, emptyRegistry, cfgA, cfgB])⟩

/-! Serialization (`to_yaml` / `from_yaml` on every model in models.py).

`to_yaml` is `yaml.dump(self.model_dump(mode="json"))` and `from_yaml` is
`cls(**yaml.safe_load(...))`.  The YAML string layer is the external `yaml`
library (out of scope per the spec), and on the JSON-safe documents
`model_dump(mode="json")` produces, `yaml.safe_load ∘ yaml.dump` is the
identity; so serialization is modelled at the document level: `toDoc` is the
`model_dump(mode="json")` output as a `YVal`, `fromDoc` is the pydantic
constructor applied to a loaded document, including field defaults, type
checks and validators.  Datetime fields are modelled by their ISO string
form; their `datetime.now()` default factories take the wall clock as a
`now` argument. -/

def YVal.getField (fields : List (String × YVal)) (k : String) : Option YVal :=
  (fields.find? (fun p => p.1 == k)).map Prod.snd

def parseStr : YVal → Except PyErr String
  | .strv s => .ok s
  | _ => .error .validationFailure

def parseBool : YVal → Except PyErr Bool
  | .boolv b => .ok b
  | _ => .error .validationFailure

def parseOptStr : YVal → Except PyErr (Option String)
  | .nullv => .ok none
  | .strv s => .ok (some s)
  | _ => .error .validationFailure

def parseOptInt : YVal → Except PyErr (Option Int)
  | .nullv => .ok none
  | .intv n => .ok (some n)
  | _ => .error .validationFailure

/-- Pydantic float fields accept ints (coerced). -/
def parseOptRat : YVal → Except PyErr (Option ℚ)
  | .nullv => .ok none
  | .ratv q => .ok (some q)
  | .intv n => .ok (some (n : ℚ))
  | _ => .error .validationFailure

def optStrToY : Option String → YVal
  | none => .nullv
  | some s => .strv s

def optIntToY : Option Int → YVal
  | none => .nullv
  | some n => .intv n

def optRatToY : Option ℚ → YVal
  | none => .nullv
  | some q => .ratv q

def strPairsToY (m : List (String × String)) : List (String × YVal) :=
  m.map (fun p => (p.1, .strv p.2))

def parseStrPairs : List (String × YVal) → Except PyErr (List (String × String))
  | [] => .ok []
  | (k, v) :: tl => do
      let sv ← parseStr v
      let rest ← parseStrPairs tl
      .ok ((k, sv) :: rest)

def strListToY (l : List String) : List YVal := l.map .strv

def parseStrList : List YVal → Except PyErr (List String)
  | [] => .ok []
  | v :: tl => do
      let sv ← parseStr v
      let rest ← parseStrList tl
      .ok (sv :: rest)

/-- A `Dict[str, str]` field. -/
def parseStrDict : YVal → Except PyErr (List (String × String))
  | .objv fs => parseStrPairs fs
  | _ => .error .validationFailure

/-- A `List[str]` field. -/
def parseStrArr : YVal → Except PyErr (List String)
  | .arrv xs => parseStrList xs
  | _ => .error .validationFailure

/-- An `Optional[Dict[str, Any]]` field. -/
def parseOptObj : YVal → Except PyErr (Option (List (String × YVal)))
  | .nullv => .ok none
  | .objv fs => .ok (some fs)
  | _ => .error .validationFailure

/-- A required pydantic field: absent means a validation error. -/
def requiredField {α : Type} (fs : List (String × YVal)) (k : String)
    (p : YVal → Except PyErr α) : Except PyErr α :=
  match YVal.getField fs k with
  | some v => p v
  | none => .error .validationFailure

/-- A defaulted pydantic field: absent means the default. -/
def optionalField {α : Type} (fs : List (String × YVal)) (k : String)
    (p : YVal → Except PyErr α) (dflt : α) : Except PyErr α :=
  match YVal.getField fs k with
  | some v => p v
  | none => .ok dflt

theorem parseOptStr_rt (o : Option String) : parseOptStr (optStrToY o) = .ok o := by
  cases o <;> rfl

theorem parseOptInt_rt (o : Option Int) : parseOptInt (optIntToY o) = .ok o := by
  cases o <;> rfl

theorem parseOptRat_rt (o : Option ℚ) : parseOptRat (optRatToY o) = .ok o := by
  cases o <;> rfl

theorem parseStrPairs_rt (m : List (String × String)) :
    parseStrPairs (strPairsToY m) = .ok m := by
  induction m with
  | nil => rfl
  | cons x tl ih =>
      simp only [strPairsToY] at ih
      simp [strPairsToY, parseStrPairs, parseStr, bind, Except.bind, ih]

theorem parseStrList_rt (l : List String) : parseStrList (strListToY l) = .ok l := by
  induction l with
  | nil => rfl
  | cons x tl ih =>
      simp only [strListToY] at ih
      simp [strListToY, parseStrList, parseStr, bind, Except.bind, ih]

theorem parseStrDict_rt (m : List (String × String)) :
    parseStrDict (.objv (strPairsToY m)) = .ok m := by
  simp [parseStrDict, parseStrPairs_rt]

theorem parseStrArr_rt (l : List String) :
    parseStrArr (.arrv (strListToY l)) = .ok l := by
  simp [parseStrArr, parseStrList_rt]

theorem parseOptObj_rt (o : Option (List (String × YVal))) :
    parseOptObj (match o with | none => .nullv | some d => .objv d) = .ok o := by
  cases o <;> rfl

/-- Python `str.strip()` (whitespace at both ends), structurally. -/
def pyStrip (s : String) : String :=
  String.mk (((s.data.dropWhile Char.isWhitespace).reverse.dropWhile
    Char.isWhitespace).reverse)

/-- Python `str.startswith(pre)`, structurally. -/
def pyStartsWith (s pre : String) : Bool :=
  s.data.take pre.data.length == pre.data

/-- Python `str.isalnum` restricted to ASCII letters and digits. -/
def isAlnumChar (ch : Char) : Bool := ch.isAlpha || ch.isDigit

/-- The `validate_name` validator (models.py lines 35-40):
`v.replace("-", "").replace("_", "").isalnum()` — nonempty after removing
hyphens/underscores, and alphanumeric. -/
def nameOK (s : String) : Bool :=
  let r := s.data.filter (fun ch => !(ch == '-' || ch == '_'))
  !r.isEmpty && r.all isAlnumChar

/-- The pydantic bound `ge=1, le=65535` on `port`. -/
def portOKB : Option Int → Bool
  | none => true
  | some n => decide (1 ≤ n ∧ n ≤ 65535)

/-- `MCPServerConfig.model_dump(mode="json")`. -/
def MCPServerConfig.toDoc (c : MCPServerConfig) : YVal :=
  .objv [("name", .strv c.name), ("docker_command", .strv c.docker_command),
         ("host", .strv c.host), ("port", optIntToY c.port),
         ("description", optStrToY c.description),
         ("environment", .objv (strPairsToY c.environment)),
         ("volumes", .arrv (strListToY c.volumes)),
         ("networks", .arrv (strListToY c.networks)),
         ("labels", .objv (strPairsToY c.labels)),
         ("auto_start", .boolv c.auto_start),
         ("restart_policy", .strv c.restart_policy),
         ("health_check", match c.health_check with | none => .nullv | some d => .objv d),
         ("created_at", .strv c.created_at), ("updated_at", .strv c.updated_at)]

/-- `MCPServerConfig(**data)`: pydantic construction with field defaults and
the `validate_name` / `validate_docker_command` validators (the latter strips
the command and requires the "docker" head). -/
def MCPServerConfig.fromDoc (now : String) (v : YVal) : Except PyErr MCPServerConfig :=
  match v with
  | .objv fs => do
      let nm ← requiredField fs "name" parseStr
      let dc ← requiredField fs "docker_command" parseStr
      let host ← optionalField fs "host" parseStr "localhost"
      let port ← optionalField fs "port" parseOptInt none
      let desc ← optionalField fs "description" parseOptStr none
      let env ← optionalField fs "environment" parseStrDict []
      let vols ← optionalField fs "volumes" parseStrArr []
      let nets ← optionalField fs "networks" parseStrArr []
      let lbls ← optionalField fs "labels" parseStrDict []
      let ast ← optionalField fs "auto_start" parseBool false
      let rp ← optionalField fs "restart_policy" parseStr "no"
      let hc ← optionalField fs "health_check" parseOptObj none
      let cat ← optionalField fs "created_at" parseStr now
      let uat ← optionalField fs "updated_at" parseStr now
      if nameOK nm then
        if pyStartsWith (pyStrip dc) "docker" then
          if portOKB port then
            .ok { name := nm, docker_command := pyStrip dc, host := host, port := port,
                  description := desc, environment := env, volumes := vols,
                  networks := nets, labels := lbls, auto_start := ast,
                  restart_policy := rp, health_check := hc,
                  created_at := cat, updated_at := uat }
          else .error .validationFailure
        else .error .validationFailure
      else .error .validationFailure
  | _ => .error .validationFailure

/-- A config as pydantic constructs it: name format valid, the stored command
already stripped and starting with "docker", port in range. -/
def MCPServerConfig.Valid (c : MCPServerConfig) : Prop :=
  nameOK c.name = true
  ∧ pyStrip c.docker_command = c.docker_command
  ∧ pyStartsWith c.docker_command "docker" = true
  ∧ portOKB c.port = true

theorem config_roundtrip (now : String) (c : MCPServerConfig) (h : c.Valid) :
    MCPServerConfig.fromDoc now c.toDoc = .ok c := by
  obtain ⟨h1, h2, h3, h4⟩ := h
  simp [MCPServerConfig.toDoc, MCPServerConfig.fromDoc, requiredField, optionalField,
    YVal.getField, List.find?, parseStr, parseBool, parseOptInt_rt, parseOptStr_rt,
    parseStrDict_rt, parseStrArr_rt, parseOptObj_rt, bind, Except.bind,
    h1, h2, h3, h4]

/-- `ResourceUsage.model_dump(mode="json")`. -/
def ResourceUsage.toDoc (r : ResourceUsage) : YVal :=
  .objv [("cpu_usage", optRatToY r.cpu_usage), ("memory_usage", optIntToY r.memory_usage),
         ("network_rx", optIntToY r.network_rx), ("network_tx", optIntToY r.network_tx),
         ("block_read", optIntToY r.block_read), ("block_write", optIntToY r.block_write),
         ("pids", optIntToY r.pids)]

/-- `ResourceUsage(**data)`: all fields defaulted to `None`, bounds checked. -/
def ResourceUsage.fromDoc (v : YVal) : Except PyErr ResourceUsage :=
  match v with
  | .objv fs => do
      let cu ← optionalField fs "cpu_usage" parseOptRat none
      let mu ← optionalField fs "memory_usage" parseOptInt none
      let rx ← optionalField fs "network_rx" parseOptInt none
      let tx ← optionalField fs "network_tx" parseOptInt none
      let br ← optionalField fs "block_read" parseOptInt none
      let bw ← optionalField fs "block_write" parseOptInt none
      let pd ← optionalField fs "pids" parseOptInt none
      ResourceUsage.construct
        { cpu_usage := cu, memory_usage := mu, network_rx := rx, network_tx := tx,
          block_read := br, block_write := bw, pids := pd }
  | _ => .error .validationFailure

theorem resource_roundtrip (r : ResourceUsage) (h : r.validB = true) :
    ResourceUsage.fromDoc r.toDoc = .ok r := by
  simp [ResourceUsage.toDoc, ResourceUsage.fromDoc, optionalField, YVal.getField,
    List.find?, parseOptRat_rt, parseOptInt_rt, bind, Except.bind,
    ResourceUsage.construct, h]

/-- `ContainerLogs.model_dump(mode="json")`. -/
def ContainerLogs.toDoc (cl : ContainerLogs) : YVal :=
  .objv [("logs", .arrv (strListToY cl.logs))]

/-- `ContainerLogs(**data)`. -/
def ContainerLogs.fromDoc (v : YVal) : Except PyErr ContainerLogs :=
  match v with
  | .objv fs => do
      let lg ← optionalField fs "logs" parseStrArr []
      .ok { logs := lg }
  | _ => .error .validationFailure

theorem logs_roundtrip (cl : ContainerLogs) : ContainerLogs.fromDoc cl.toDoc = .ok cl := by
  simp [ContainerLogs.toDoc, ContainerLogs.fromDoc, optionalField, YVal.getField,
    List.find?, parseStrArr_rt, bind, Except.bind]

/-- One host-binding list of a `ports` entry: `List[Dict[str, str]]`. -/
def bindListToY (b : List (List (String × String))) : YVal :=
  .arrv (b.map (fun d => .objv (strPairsToY d)))

def parseBindItems : List YVal → Except PyErr (List (List (String × String)))
  | [] => .ok []
  | v :: tl => do
      let d ← parseStrDict v
      let rest ← parseBindItems tl
      .ok (d :: rest)

def parseBindList : YVal → Except PyErr (List (List (String × String)))
  | .arrv xs => parseBindItems xs
  | _ => .error .validationFailure

theorem parseBindList_rt (b : List (List (String × String))) :
    parseBindList (bindListToY b) = .ok b := by
  simp only [bindListToY, parseBindList]
  induction b with
  | nil => rfl
  | cons d tl ih => simp [parseBindItems, parseStrDict_rt, bind, Except.bind, ih]

def portsToY (ps : List (String × List (List (String × String)))) : YVal :=
  .objv (ps.map (fun p => (p.1, bindListToY p.2)))

def parsePortsPairs : List (String × YVal) →
    Except PyErr (List (String × List (List (String × String))))
  | [] => .ok []
  | (k, v) :: tl => do
      let b ← parseBindList v
      let rest ← parsePortsPairs tl
      .ok ((k, b) :: rest)

def parsePortsDict : YVal → Except PyErr (List (String × List (List (String × String))))
  | .objv fs => parsePortsPairs fs
  | _ => .error .validationFailure

theorem parsePortsDict_rt (ps : List (String × List (List (String × String)))) :
    parsePortsDict (portsToY ps) = .ok ps := by
  simp only [portsToY, parsePortsDict]
  induction ps with
  | nil => rfl
  | cons p tl ih => simp [parsePortsPairs, parseBindList_rt, bind, Except.bind, ih]

def mountsToY (ms : List (List (String × YVal))) : YVal :=
  .arrv (ms.map .objv)

def parseObjItems : List YVal → Except PyErr (List (List (String × YVal)))
  | [] => .ok []
  | .objv fs :: tl => do
      let rest ← parseObjItems tl
      .ok (fs :: rest)
  | _ :: _ => .error .validationFailure

def parseMounts : YVal → Except PyErr (List (List (String × YVal)))
  | .arrv xs => parseObjItems xs
  | _ => .error .validationFailure

theorem parseMounts_rt (ms : List (List (String × YVal))) :
    parseMounts (mountsToY ms) = .ok ms := by
  simp only [mountsToY, parseMounts]
  induction ms with
  | nil => rfl
  | cons m tl ih => simp [parseObjItems, bind, Except.bind, ih]

/-- `ContainerInfo.model_dump(mode="json")`. -/
def ContainerInfo.toDoc (ci : ContainerInfo) : YVal :=
  .objv [("container_id", optStrToY ci.container_id),
         ("container_name", optStrToY ci.container_name),
         ("image", optStrToY ci.image), ("image_id", optStrToY ci.image_id),
         ("ports", portsToY ci.ports), ("mounts", mountsToY ci.mounts)]

/-- `ContainerInfo(**data)`. -/
def ContainerInfo.fromDoc (v : YVal) : Except PyErr ContainerInfo :=
  match v with
  | .objv fs => do
      let cid ← optionalField fs "container_id" parseOptStr none
      let cn ← optionalField fs "container_name" parseOptStr none
      let im ← optionalField fs "image" parseOptStr none
      let iid ← optionalField fs "image_id" parseOptStr none
      let ps ← optionalField fs "ports" parsePortsDict []
      let ms ← optionalField fs "mounts" parseMounts []
      .ok { container_id := cid, container_name := cn, image := im, image_id := iid,
            ports := ps, mounts := ms }
  | _ => .error .validationFailure

theorem info_roundtrip (ci : ContainerInfo) : ContainerInfo.fromDoc ci.toDoc = .ok ci := by
  simp [ContainerInfo.toDoc, ContainerInfo.fromDoc, optionalField, YVal.getField,
    List.find?, parseOptStr_rt, parsePortsDict_rt, parseMounts_rt, bind, Except.bind]

/-- `ServerStatus`/`ContainerStatus` enum values as dumped (`str` enum). -/
def statusToStr : ContainerStatus → String
  | .RUNNING => "running"
  | .STOPPED => "stopped"
  | .ERROR => "error"
  | .UNKNOWN => "unknown"
  | .STARTING => "starting"
  | .STOPPING => "stopping"

/-- Pydantic enum parsing: only the six member values are accepted. -/
def statusFromStr (s : String) : Except PyErr ContainerStatus :=
  if s = "running" then .ok .RUNNING
  else if s = "stopped" then .ok .STOPPED
  else if s = "error" then .ok .ERROR
  else if s = "unknown" then .ok .UNKNOWN
  else if s = "starting" then .ok .STARTING
  else if s = "stopping" then .ok .STOPPING
  else .error .validationFailure

theorem statusFromStr_rt (st : ContainerStatus) :
    statusFromStr (statusToStr st) = .ok st := by
  cases st <;> rfl

def parseOptLogs : YVal → Except PyErr (Option ContainerLogs)
  | .nullv => .ok none
  | v => (ContainerLogs.fromDoc v).map some

def parseOptUsage : YVal → Except PyErr (Option ResourceUsage)
  | .nullv => .ok none
  | v => (ResourceUsage.fromDoc v).map some

/-- `MCPServerStatus.model_dump(mode="json")`. -/
def MCPServerStatus.toDoc (m : MCPServerStatus) : YVal :=
  .objv [("status", .strv (statusToStr m.status)),
         ("container_logs",
           match m.container_logs with | none => .nullv | some cl => cl.toDoc),
         ("resource_usage",
           match m.resource_usage with | none => .nullv | some r => r.toDoc),
         ("uptime", optStrToY m.uptime),
         ("health_status", optStrToY m.health_status),
         ("last_check", .strv m.last_check)]

/-- `MCPServerStatus(**data)`. -/
def MCPServerStatus.fromDoc (now : String) (v : YVal) : Except PyErr MCPServerStatus :=
  match v with
  | .objv fs => do
      let st ← requiredField fs "status" (fun w => do
        let sv ← parseStr w
        statusFromStr sv)
      let cl ← optionalField fs "container_logs" parseOptLogs none
      let ru ← optionalField fs "resource_usage" parseOptUsage none
      let up ← optionalField fs "uptime" parseOptStr none
      let hs ← optionalField fs "health_status" parseOptStr none
      let lc ← optionalField fs "last_check" parseStr now
      .ok { status := st, container_logs := cl, resource_usage := ru, uptime := up,
            health_status := hs, last_check := lc }
  | _ => .error .validationFailure

/-- A status snapshot as pydantic constructs it: any attached resource usage
satisfies the `ResourceUsage` bounds. -/
def MCPServerStatus.Valid (m : MCPServerStatus) : Prop :=
  match m.resource_usage with
  | none => True
  | some r => r.validB = true

theorem status_roundtrip (now : String) (m : MCPServerStatus) (h : m.Valid) :
    MCPServerStatus.fromDoc now m.toDoc = .ok m := by
  have hcl : parseOptLogs
      (match m.container_logs with | none => .nullv | some cl => cl.toDoc)
      = .ok m.container_logs := by
    cases hc : m.container_logs with
    | none => rfl
    | some cl =>
        show parseOptLogs cl.toDoc = .ok (some cl)
        have hrt := logs_roundtrip cl
        rw [show cl.toDoc = YVal.objv [("logs", .arrv (strListToY cl.logs))] from rfl] at hrt ⊢
        simp [parseOptLogs, hrt, Except.map]
  have hru : parseOptUsage
      (match m.resource_usage with | none => .nullv | some r => r.toDoc)
      = .ok m.resource_usage := by
    cases hr : m.resource_usage with
    | none => rfl
    | some r =>
        have hvr : r.validB = true := by
          have := h
          unfold MCPServerStatus.Valid at this
          rw [hr] at this
          exact this
        show parseOptUsage r.toDoc = .ok (some r)
        have hrt := resource_roundtrip r hvr
        rw [show r.toDoc = YVal.objv [("cpu_usage", optRatToY r.cpu_usage),
          ("memory_usage", optIntToY r.memory_usage),
          ("network_rx", optIntToY r.network_rx), ("network_tx", optIntToY r.network_tx),
          ("block_read", optIntToY r.block_read), ("block_write", optIntToY r.block_write),
          ("pids", optIntToY r.pids)] from rfl] at hrt ⊢
        simp [parseOptUsage, hrt, Except.map]
  simp [MCPServerStatus.toDoc, MCPServerStatus.fromDoc, requiredField, optionalField,
    YVal.getField, List.find?, parseStr, statusFromStr_rt, hcl, hru, parseOptStr_rt,
    bind, Except.bind]

def parseOptInfo : YVal → Except PyErr (Option ContainerInfo)
  | .nullv => .ok none
  | v => (ContainerInfo.fromDoc v).map some

/-- `MCPServerData.model_dump(mode="json")`. -/
def MCPServerData.toDoc (d : MCPServerData) : YVal :=
  .objv [("config", d.config.toDoc), ("status", d.status.toDoc),
         ("container_info",
           match d.container_info with | none => .nullv | some ci => ci.toDoc)]

/-- `MCPServerData(**data)`. -/
def MCPServerData.fromDoc (now : String) (v : YVal) : Except PyErr MCPServerData :=
  match v with
  | .objv fs => do
      let cfg ← requiredField fs "config" (MCPServerConfig.fromDoc now)
      let st ← requiredField fs "status" (MCPServerStatus.fromDoc now)
      let ci ← optionalField fs "container_info" parseOptInfo none
      .ok { config := cfg, status := st, container_info := ci }
  | _ => .error .validationFailure

def MCPServerData.Valid (d : MCPServerData) : Prop := d.config.Valid ∧ d.status.Valid

theorem data_roundtrip (now : String) (d : MCPServerData) (h : d.Valid) :
    MCPServerData.fromDoc now d.toDoc = .ok d := by
  obtain ⟨hc, hs⟩ := h
  have hci : parseOptInfo
      (match d.container_info with | none => .nullv | some ci => ci.toDoc)
      = .ok d.container_info := by
    cases hi : d.container_info with
    | none => rfl
    | some ci =>
        show parseOptInfo ci.toDoc = .ok (some ci)
        have hrt := info_roundtrip ci
        rw [show ci.toDoc = YVal.objv [("container_id", optStrToY ci.container_id),
          ("container_name", optStrToY ci.container_name),
          ("image", optStrToY ci.image), ("image_id", optStrToY ci.image_id),
          ("ports", portsToY ci.ports), ("mounts", mountsToY ci.mounts)]
          from rfl] at hrt ⊢
        simp [parseOptInfo, hrt, Except.map]
  simp [MCPServerData.toDoc, MCPServerData.fromDoc, requiredField, optionalField,
    YVal.getField, List.find?, config_roundtrip now d.config hc,
    status_roundtrip now d.status hs, hci, bind, Except.bind]

def serversToY (l : List (String × MCPServerData)) : List (String × YVal) :=
  l.map (fun p => (p.1, p.2.toDoc))

/-- `ServerRegistry.model_dump(mode="json")`. -/
def ServerRegistry.toDoc (R : ServerRegistry) : YVal :=
  .objv [("servers", .objv (serversToY R.servers)),
         ("last_updated", .strv R.last_updated), ("version", .strv R.version)]

def parseServersPairs (now : String) :
    List (String × YVal) → Except PyErr (List (String × MCPServerData))
  | [] => .ok []
  | (k, v) :: tl => do
      let d ← MCPServerData.fromDoc now v
      let rest ← parseServersPairs now tl
      .ok ((k, d) :: rest)

def parseServers (now : String) : YVal → Except PyErr (List (String × MCPServerData))
  | .objv fs => parseServersPairs now fs
  | _ => .error .validationFailure

/-- `ServerRegistry(**data)`. -/
def ServerRegistry.fromDoc (now : String) (v : YVal) : Except PyErr ServerRegistry :=
  match v with
  | .objv fs => do
      let sv ← optionalField fs "servers" (parseServers now) []
      let lu ← optionalField fs "last_updated" parseStr now
      let ver ← optionalField fs "version" parseStr "1.0.0"
      .ok { servers := sv, last_updated := lu, version := ver }
  | _ => .error .validationFailure

def ServerRegistry.Valid (R : ServerRegistry) : Prop := ∀ p ∈ R.servers, p.2.Valid

theorem parseServersPairs_rt (now : String) (l : List (String × MCPServerData))
    (h : ∀ p ∈ l, p.2.Valid) : parseServersPairs now (serversToY l) = .ok l := by
  induction l with
  | nil => rfl
  | cons p tl ih =>
      simp only [serversToY] at ih
      have hp := h p (List.mem_cons_self p tl)
      simp [serversToY, parseServersPairs, data_roundtrip now p.2 hp, bind, Except.bind,
        ih (fun q hq => h q (List.mem_cons_of_mem p hq))]

theorem registry_roundtrip (now : String) (R : ServerRegistry) (h : R.Valid) :
    ServerRegistry.fromDoc now R.toDoc = .ok R := by
  simp [ServerRegistry.toDoc, ServerRegistry.fromDoc, requiredField, optionalField,
    YVal.getField, List.find?, parseServers, parseServersPairs_rt now R.servers h,
    parseStr, bind, Except.bind]

/-- C9: for every entity of the data model — `MCPServerConfig`,
`ContainerInfo`, `ContainerLogs`, `ResourceUsage`, `MCPServerStatus` (the
ServerStatus snapshot, enum included), `MCPServerData` (the server record) and
`ServerRegistry` — decoding the encoding reproduces an equal value, for every
value the pydantic constructors can produce (validators satisfied); unset
optional fields encode to null and decode back to absent. -/
theorem c9_serialization_roundtrip :
    (∀ (now : String) (c : MCPServerConfig), c.Valid →
        MCPServerConfig.fromDoc now c.toDoc = .ok c)
    ∧ (∀ ci : ContainerInfo, ContainerInfo.fromDoc ci.toDoc = .ok ci)
    ∧ (∀ cl : ContainerLogs, ContainerLogs.fromDoc cl.toDoc = .ok cl)
    ∧ (∀ r : ResourceUsage, r.validB = true → ResourceUsage.fromDoc r.toDoc = .ok r)
    ∧ (∀ (now : String) (m : MCPServerStatus), m.Valid →
        MCPServerStatus.fromDoc now m.toDoc = .ok m)
    ∧ (∀ (now : String) (d : MCPServerData), d.Valid →
        MCPServerData.fromDoc now d.toDoc = .ok d)
    ∧ (∀ (now : String) (R : ServerRegistry), R.Valid →
        ServerRegistry.fromDoc now R.toDoc = .ok R) :=
  ⟨config_roundtrip, info_roundtrip, logs_roundtrip,
   resource_roundtrip, status_roundtrip, data_roundtrip, registry_roundtrip⟩

/-- C9 witness: the round-trips instantiated at concrete values with every
optional field absent — the decoded values are those same values, so every
optional field is still absent (no sentinel leakage). -/
theorem c9_serialization_roundtrip_witness :
    MCPServerConfig.fromDoc "t0" (MCPServerConfig.toDoc
        { name := "a", docker_command := "docker run img" })
      = .ok { name := "a", docker_command := "docker run img" }
    ∧ ContainerInfo.fromDoc (ContainerInfo.toDoc {}) = .ok {}
    ∧ ContainerLogs.fromDoc (ContainerLogs.toDoc {}) = .ok {}
    ∧ ResourceUsage.fromDoc (ResourceUsage.toDoc {}) = .ok {}
    ∧ MCPServerStatus.fromDoc "t0" (MCPServerStatus.toDoc
        { status := .UNKNOWN, last_check := "t0" })
      = .ok { status := .UNKNOWN, last_check := "t0" }
    ∧ ServerRegistry.fromDoc "t0" (ServerRegistry.toDoc {}) = .ok {} :=
  ⟨c9_serialization_roundtrip.1 "t0" { name := "a", docker_command := "docker run img" }
      ⟨by decide, by decide, by decide, by decide⟩,
   c9_serialization_roundtrip.2.1 {},
   c9_serialization_roundtrip.2.2.1 {},
   c9_serialization_roundtrip.2.2.2.1 {} (by decide),
   c9_serialization_roundtrip.2.2.2.2.1 "t0" { status := .UNKNOWN, last_check := "t0" }
      trivial,
   c9_serialization_roundtrip.2.2.2.2.2.2 "t0" {} (by intro p hp; cases hp)⟩

end MSM
